import Mathlib

/- Verification development for the GRASS module i.hyper.indices: a shallow
embedding of its spectral-index catalog, band resolver, expression builder
and orchestration loop, together with theorems settling the specified
properties. Python floats on the wavelength values used by the module are
modelled exactly by rationals; Python dicts are modelled by association
lists with explicit insertion-order semantics. -/

set_option maxHeartbeats 1000000

namespace HyperIndices

/-- Abstract spectral role names: the keys of the `bands_required` dicts that
appear in the source catalog (`HyperspectralIndices._initialize_indices`). -/
inductive Role
  | RED | NIR | BLUE | GREEN | REDEDGE | RE1 | RE2
  | B510 | B550 | B700 | RE700 | RE720 | RE740 | RE715 | RE726 | RE734 | RE747
  | RE672 | RE701 | RE749
  | B900 | B970 | B860 | B1240 | B2130 | B955 | B819 | B1649 | B680 | B710 | B850
  | B420 | B695 | B760 | B750 | B415 | B435 | B430
  | SWIR1 | SWIR2 | SWIR3 | GREEN1 | GREEN2 | SWIR | NIR1 | NIR2
  | SWIR2200 | SWIR2300 | SWIR2400 | SWIR1730 | SWIR2210 | SWIR2450 | SWIR1650 | SWIR1600
  | B490 | B560 | B665 | B865 | B830 | B1550 | B450 | B650 | B500
  deriving DecidableEq

/-- A band requirement as stored in `bands_required`: either a
`(min_wavelength, max_wavelength)` tuple, or (legacy form supported by
`can_calculate_index`) a single target wavelength. -/
inductive BandReq
  | range (lo hi : ℚ)
  | single (target : ℚ)
  deriving DecidableEq

open Role

/-- Embedding of the `SpectralIndex` container class. The formula lambda takes
the role-to-raster-name mapping and produces the r.mapcalc expression string. -/
structure SpectralIndex where
  name : String
  description : String
  formula : (Role → String) → String
  bands_required : List (Role × BandReq)
  reference : String
  theme : String
  normalize_range : Option (ℚ × ℚ)

/-- `self.indices_db['NDVI'] = SpectralIndex(...)` (source lines 230-238). -/
def NDVI : SpectralIndex :=
  ⟨"NDVI", "Normalized Difference Vegetation Index",
   fun b => "float(" ++ b NIR ++ " - " ++ b RED ++ ") / (" ++ b NIR ++ " + " ++ b RED ++ ")",
   [(RED, .range 620 690), (NIR, .range 760 900)],
   "Rouse et al. 1974", "vegetation", some (-1, 1)⟩

/-- Catalog entry EVI. -/
def EVI : SpectralIndex :=
  ⟨"EVI", "Enhanced Vegetation Index",
   fun b => "2.5 * (" ++ b NIR ++ " - " ++ b RED ++ ") / (" ++ b NIR ++ " + 6 * " ++ b RED ++ " - 7.5 * " ++ b BLUE ++ " + 1)",
   [(BLUE, .range 450 520), (RED, .range 620 690), (NIR, .range 760 900)],
   "Huete et al. 2002", "vegetation", some (-1, 1)⟩

/-- Catalog entry SAVI. -/
def SAVI : SpectralIndex :=
  ⟨"SAVI", "Soil Adjusted Vegetation Index",
   fun b => "((1 + 0.5) * (" ++ b NIR ++ " - " ++ b RED ++ ")) / (" ++ b NIR ++ " + " ++ b RED ++ " + 0.5)",
   [(RED, .range 620 690), (NIR, .range 760 900)],
   "Huete 1988", "vegetation", some (-1, 1)⟩

/-- Catalog entry MSAVI (no normalize_range). -/
def MSAVI : SpectralIndex :=
  ⟨"MSAVI", "Modified Soil Adjusted Vegetation Index",
   fun b => "(2 * " ++ b NIR ++ " + 1 - sqrt((2 * " ++ b NIR ++ " + 1)^2 - 8 * (" ++ b NIR ++ " - " ++ b RED ++ "))) / 2",
   [(RED, .range 620 690), (NIR, .range 760 900)],
   "Qi et al. 1994", "vegetation", none⟩

/-- Catalog entry GNDVI. -/
def GNDVI : SpectralIndex :=
  ⟨"GNDVI", "Green Normalized Difference Vegetation Index",
   fun b => "float(" ++ b NIR ++ " - " ++ b GREEN ++ ") / (" ++ b NIR ++ " + " ++ b GREEN ++ ")",
   [(GREEN, .range 520 600), (NIR, .range 760 900)],
   "Gitelson et al. 1996", "vegetation", some (-1, 1)⟩

/-- Catalog entry NDRE. -/
def NDRE : SpectralIndex :=
  ⟨"NDRE", "Normalized Difference Red Edge",
   fun b => "float(" ++ b NIR ++ " - " ++ b REDEDGE ++ ") / (" ++ b NIR ++ " + " ++ b REDEDGE ++ ")",
   [(REDEDGE, .range 690 730), (NIR, .range 760 900)],
   "Gitelson and Merzlyak 1994", "vegetation", some (-1, 1)⟩

/-- Catalog entry CIrededge: note the mixed-case name, stored verbatim as the
dict key `'CIrededge'` in the source. -/
def CIrededge : SpectralIndex :=
  ⟨"CIrededge", "Chlorophyll Index Red Edge",
   fun b => "(" ++ b NIR ++ " / " ++ b REDEDGE ++ ") - 1",
   [(REDEDGE, .range 690 730), (NIR, .range 760 900)],
   "Gitelson et al. 2003", "vegetation", none⟩

/-- Catalog entry MTCI. -/
def MTCI : SpectralIndex :=
  ⟨"MTCI", "MERIS Terrestrial Chlorophyll Index",
   fun b => "(" ++ b NIR ++ " - " ++ b REDEDGE ++ ") / (" ++ b REDEDGE ++ " - " ++ b RED ++ ")",
   [(RED, .range 620 690), (REDEDGE, .range 690 730), (NIR, .range 760 900)],
   "Dash and Curran 2004", "vegetation", none⟩

/-- Catalog entry MCARI. -/
def MCARI : SpectralIndex :=
  ⟨"MCARI", "Modified Chlorophyll Absorption Ratio Index",
   fun b => "((" ++ b REDEDGE ++ " - " ++ b RED ++ ") - 0.2 * (" ++ b REDEDGE ++ " - " ++ b GREEN ++ ")) * (" ++ b REDEDGE ++ " / " ++ b RED ++ ")",
   [(GREEN, .range 520 600), (RED, .range 620 690), (REDEDGE, .range 690 730)],
   "Daughtry et al. 2000", "vegetation", none⟩

/-- Catalog entry REIP. -/
def REIP : SpectralIndex :=
  ⟨"REIP", "Red Edge Inflection Point",
   fun b => "700 + 40 * (((" ++ b RED ++ " + " ++ b NIR ++ ") / 2) - " ++ b RE1 ++ ") / (" ++ b RE2 ++ " - " ++ b RE1 ++ ")",
   [(RED, .range 620 690), (RE1, .range 697 712), (RE2, .range 732 748), (NIR, .range 760 900)],
   "Guyot et al. 1988", "vegetation", none⟩

/-- Catalog entry ARVI. -/
def ARVI : SpectralIndex :=
  ⟨"ARVI", "Atmospherically Resistant Vegetation Index",
   fun b => "(" ++ b NIR ++ " - (2 * " ++ b RED ++ " - " ++ b BLUE ++ ")) / (" ++ b NIR ++ " + (2 * " ++ b RED ++ " - " ++ b BLUE ++ "))",
   [(BLUE, .range 450 520), (RED, .range 620 690), (NIR, .range 760 900)],
   "Kaufman and Tanre 1992", "vegetation", none⟩

/-- Catalog entry VARI. -/
def VARI : SpectralIndex :=
  ⟨"VARI", "Visible Atmospherically Resistant Index",
   fun b => "(" ++ b GREEN ++ " - " ++ b RED ++ ") / (" ++ b GREEN ++ " + " ++ b RED ++ " - " ++ b BLUE ++ ")",
   [(BLUE, .range 450 520), (GREEN, .range 520 600), (RED, .range 620 690)],
   "Gitelson et al. 2002", "vegetation", none⟩

/-- Catalog entry DVI. -/
def DVI : SpectralIndex :=
  ⟨"DVI", "Difference Vegetation Index",
   fun b => b NIR ++ " - " ++ b RED,
   [(RED, .range 620 690), (NIR, .range 760 900)],
   "Tucker 1979", "vegetation", none⟩

/-- Catalog entry TVI. -/
def TVI : SpectralIndex :=
  ⟨"TVI", "Triangular Vegetation Index",
   fun b => "0.5 * (120 * (" ++ b NIR ++ " - " ++ b GREEN ++ ") - 200 * (" ++ b RED ++ " - " ++ b GREEN ++ "))",
   [(GREEN, .range 520 600), (RED, .range 620 690), (NIR, .range 760 900)],
   "Broge and Leblanc 2001", "vegetation", none⟩

/-- Catalog entry ARI1. -/
def ARI1 : SpectralIndex :=
  ⟨"ARI1", "Anthocyanin Reflectance Index 1",
   fun b => "(1 / " ++ b GREEN ++ ") - (1 / " ++ b REDEDGE ++ ")",
   [(GREEN, .range 520 600), (REDEDGE, .range 690 730)],
   "Gitelson et al. 2001", "pigments", none⟩

/-- Catalog entry ARI2. -/
def ARI2 : SpectralIndex :=
  ⟨"ARI2", "Anthocyanin Reflectance Index 2",
   fun b => b NIR ++ " * ((1 / " ++ b GREEN ++ ") - (1 / " ++ b REDEDGE ++ "))",
   [(GREEN, .range 520 600), (REDEDGE, .range 690 730), (NIR, .range 760 900)],
   "Gitelson et al. 2001", "pigments", none⟩

/-- Catalog entry CRI550. -/
def CRI550 : SpectralIndex :=
  ⟨"CRI550", "Carotenoid Reflectance Index 550",
   fun b => "(1 / " ++ b B510 ++ ") - (1 / " ++ b B550 ++ ")",
   [(B510, .range 505 515), (B550, .range 545 555)],
   "Gitelson et al. 2002", "pigments", none⟩

/-- Catalog entry CRI700. -/
def CRI700 : SpectralIndex :=
  ⟨"CRI700", "Carotenoid Reflectance Index 700",
   fun b => "(1 / " ++ b B510 ++ ") - (1 / " ++ b B700 ++ ")",
   [(B510, .range 505 515), (B700, .range 695 705)],
   "Gitelson et al. 2002", "pigments", none⟩

/-- Catalog entry CARI. -/
def CARI : SpectralIndex :=
  ⟨"CARI", "Chlorophyll Absorption Ratio Index",
   fun b => "(" ++ b RE700 ++ " / " ++ b RED ++ ") * abs(((" ++ b B550 ++ " - " ++ b RED ++ ") / " ++ b RE700 ++ ") + " ++ b RED ++ " - " ++ b B550 ++ ")",
   [(B550, .range 545 555), (RED, .range 620 690), (RE700, .range 695 705)],
   "Kim et al. 1994", "pigments", none⟩

/-- Catalog entry MCARIOSAVI. -/
def MCARIOSAVI : SpectralIndex :=
  ⟨"MCARIOSAVI", "MCARI/OSAVI ratio - Chlorophyll content",
   fun b => "(((" ++ b RE700 ++ " - " ++ b RED ++ ") - 0.2 * (" ++ b RE700 ++ " - " ++ b GREEN ++ ")) * (" ++ b RE700 ++ " / " ++ b RED ++ ")) / ((1.16 * (" ++ b NIR ++ " - " ++ b RED ++ ") / (" ++ b NIR ++ " + " ++ b RED ++ " + 0.16)))",
   [(GREEN, .range 520 600), (RED, .range 620 690), (RE700, .range 695 705), (NIR, .range 760 900)],
   "Daughtry et al. 2000", "pigments", none⟩

/-- Catalog entry GITELSON. -/
def GITELSON : SpectralIndex :=
  ⟨"GITELSON", "Gitelson Chlorophyll Index",
   fun b => "(" ++ b NIR ++ " / " ++ b GREEN ++ ") - 1",
   [(GREEN, .range 520 600), (NIR, .range 760 900)],
   "Gitelson et al. 2003", "pigments", none⟩

/-- Catalog entry GITELSON2. -/
def GITELSON2 : SpectralIndex :=
  ⟨"GITELSON2", "Gitelson Chlorophyll Index 2",
   fun b => "(" ++ b NIR ++ " / " ++ b REDEDGE ++ ") - 1",
   [(REDEDGE, .range 690 730), (NIR, .range 760 900)],
   "Gitelson et al. 2003", "pigments", none⟩

/-- Catalog entry MCARI1. -/
def MCARI1 : SpectralIndex :=
  ⟨"MCARI1", "Modified Chlorophyll Absorption Ratio Index 1",
   fun b => "1.2 * (2.5 * (" ++ b NIR ++ " - " ++ b RED ++ ") - 1.3 * (" ++ b NIR ++ " - " ++ b GREEN ++ "))",
   [(GREEN, .range 520 600), (RED, .range 620 690), (NIR, .range 760 900)],
   "Haboudane et al. 2004", "pigments", none⟩

/-- Catalog entry MCARI2. -/
def MCARI2 : SpectralIndex :=
  ⟨"MCARI2", "Modified Chlorophyll Absorption Ratio Index 2",
   fun b => "(1.5 * (2.5 * (" ++ b NIR ++ " - " ++ b RED ++ ") - 1.3 * (" ++ b NIR ++ " - " ++ b GREEN ++ "))) / sqrt((2 * " ++ b NIR ++ " + 1)^2 - (6 * " ++ b NIR ++ " - 5 * sqrt(" ++ b RED ++ ")) - 0.5)",
   [(GREEN, .range 520 600), (RED, .range 620 690), (NIR, .range 760 900)],
   "Haboudane et al. 2004", "pigments", none⟩

/-- Catalog entry RDVI. -/
def RDVI : SpectralIndex :=
  ⟨"RDVI", "Renormalized Difference Vegetation Index",
   fun b => "(" ++ b NIR ++ " - " ++ b RED ++ ") / sqrt(" ++ b NIR ++ " + " ++ b RED ++ ")",
   [(RED, .range 620 690), (NIR, .range 760 900)],
   "Roujean and Breon 1995", "pigments", none⟩

/-- Catalog entry MARI. -/
def MARI : SpectralIndex :=
  ⟨"MARI", "Modified Anthocyanin Reflectance Index",
   fun b => "((1 / " ++ b GREEN ++ ") - (1 / " ++ b REDEDGE ++ ")) * " ++ b NIR,
   [(GREEN, .range 520 600), (REDEDGE, .range 690 730), (NIR, .range 760 900)],
   "Gitelson et al. 2006", "pigments", none⟩

/-- Catalog entry VREI1. -/
def VREI1 : SpectralIndex :=
  ⟨"VREI1", "Vogelmann Red Edge Index 1",
   fun b => b RE740 ++ " / " ++ b RE720,
   [(RE720, .range 715 725), (RE740, .range 735 745)],
   "Vogelmann et al. 1993", "pigments", none⟩

/-- Catalog entry VREI2. -/
def VREI2 : SpectralIndex :=
  ⟨"VREI2", "Vogelmann Red Edge Index 2",
   fun b => "(" ++ b RE734 ++ " - " ++ b RE747 ++ ") / (" ++ b RE715 ++ " + " ++ b RE726 ++ ")",
   [(RE715, .range 710 720), (RE726, .range 721 731), (RE734, .range 729 739), (RE747, .range 742 752)],
   "Vogelmann et al. 1993", "pigments", none⟩

/-- Catalog entry DD. -/
def DD : SpectralIndex :=
  ⟨"DD", "Double Difference Index - Chlorophyll",
   fun b => "(" ++ b RE749 ++ " - " ++ b RE720 ++ ") - (" ++ b RE701 ++ " - " ++ b RE672 ++ ")",
   [(RE672, .range 667 677), (RE701, .range 696 706), (RE720, .range 715 725), (RE749, .range 744 754)],
   "le Maire et al. 2004", "pigments", none⟩

/-- Catalog entry WI. -/
def WI : SpectralIndex :=
  ⟨"WI", "Water Index - Leaf water content",
   fun b => b B900 ++ " / " ++ b B970,
   [(B900, .range 895 905), (B970, .range 965 975)],
   "Penuelas et al. 1997", "metabolism", none⟩

/-- Catalog entry NDWI1240. -/
def NDWI1240 : SpectralIndex :=
  ⟨"NDWI1240", "Normalized Difference Water Index 1240",
   fun b => "(" ++ b B860 ++ " - " ++ b B1240 ++ ") / (" ++ b B860 ++ " + " ++ b B1240 ++ ")",
   [(B860, .range 855 865), (B1240, .range 1235 1245)],
   "Gao 1996", "metabolism", none⟩

/-- Catalog entry NDWI2130. -/
def NDWI2130 : SpectralIndex :=
  ⟨"NDWI2130", "Normalized Difference Water Index 2130",
   fun b => "(" ++ b B860 ++ " - " ++ b B2130 ++ ") / (" ++ b B860 ++ " + " ++ b B2130 ++ ")",
   [(B860, .range 855 865), (B2130, .range 2125 2135)],
   "Gao 1996", "metabolism", none⟩

/-- Catalog entry LWCI. -/
def LWCI : SpectralIndex :=
  ⟨"LWCI", "Leaf Water Content Index",
   fun b => "log(1 - (" ++ b B970 ++ " - " ++ b B900 ++ ")) / log(1 - (" ++ b B970 ++ " - " ++ b B955 ++ "))",
   [(B900, .range 895 905), (B955, .range 950 960), (B970, .range 965 975)],
   "Galvao et al. 2005", "metabolism", none⟩

/-- Catalog entry NDII. -/
def NDII : SpectralIndex :=
  ⟨"NDII", "Normalized Difference Infrared Index",
   fun b => "(" ++ b B819 ++ " - " ++ b B1649 ++ ") / (" ++ b B819 ++ " + " ++ b B1649 ++ ")",
   [(B819, .range 814 824), (B1649, .range 1644 1654)],
   "Hardisky et al. 1983", "metabolism", none⟩

/-- Catalog entry SRWI. -/
def SRWI : SpectralIndex :=
  ⟨"SRWI", "Simple Ratio Water Index",
   fun b => b B860 ++ " / " ++ b B1240,
   [(B860, .range 855 865), (B1240, .range 1235 1245)],
   "Zarco-Tejada et al. 2003", "metabolism", none⟩

/-- Catalog entry DATT. -/
def DATT : SpectralIndex :=
  ⟨"DATT", "Datt Index - Leaf pigment",
   fun b => "(" ++ b B850 ++ " - " ++ b B710 ++ ") / (" ++ b B850 ++ " - " ++ b B680 ++ ")",
   [(B680, .range 675 685), (B710, .range 705 715), (B850, .range 845 855)],
   "Datt 1999", "metabolism", none⟩

/-- Catalog entry CARTER1. -/
def CARTER1 : SpectralIndex :=
  ⟨"CARTER1", "Carter Index 1 - Stress",
   fun b => b B695 ++ " / " ++ b B420,
   [(B420, .range 415 425), (B695, .range 690 700)],
   "Carter 1994", "metabolism", none⟩

/-- Catalog entry CARTER2. -/
def CARTER2 : SpectralIndex :=
  ⟨"CARTER2", "Carter Index 2 - Stress",
   fun b => b B695 ++ " / " ++ b B760,
   [(B695, .range 690 700), (B760, .range 755 765)],
   "Carter 1994", "metabolism", none⟩

/-- Catalog entry GMI. -/
def GMI : SpectralIndex :=
  ⟨"GMI", "Gamon Index - Photosynthetic efficiency",
   fun b => b B750 ++ " / " ++ b B550,
   [(B550, .range 545 555), (B750, .range 745 755)],
   "Gamon et al. 1990", "metabolism", none⟩

/-- Catalog entry NPQI. -/
def NPQI : SpectralIndex :=
  ⟨"NPQI", "Normalized Phaeophytinization Index",
   fun b => "(" ++ b B415 ++ " - " ++ b B435 ++ ") / (" ++ b B415 ++ " + " ++ b B435 ++ ")",
   [(B415, .range 410 420), (B435, .range 430 440)],
   "Barnes et al. 1992", "metabolism", none⟩

/-- Catalog entry NPCI. -/
def NPCI : SpectralIndex :=
  ⟨"NPCI", "Normalized Pigment Chlorophyll Index",
   fun b => "(" ++ b B680 ++ " - " ++ b B430 ++ ") / (" ++ b B680 ++ " + " ++ b B430 ++ ")",
   [(B430, .range 425 435), (B680, .range 675 685)],
   "Penuelas et al. 1994", "metabolism", none⟩

/-- Catalog entry RGRI. -/
def RGRI : SpectralIndex :=
  ⟨"RGRI", "Red-Green Ratio Index",
   fun b => b RED ++ " / " ++ b GREEN,
   [(GREEN, .range 520 600), (RED, .range 620 690)],
   "Gamon and Surfus 1999", "metabolism", none⟩

/-- Catalog entry CAI: note SWIR1 and SWIR3 carry the same range, so both
roles resolve to the same band. -/
def CAI : SpectralIndex :=
  ⟨"CAI", "Cellulose Absorption Index",
   fun b => "0.5 * (" ++ b SWIR1 ++ " + " ++ b SWIR2 ++ ") - " ++ b SWIR3,
   [(SWIR1, .range 2000 2100), (SWIR2, .range 2100 2300), (SWIR3, .range 2000 2100)],
   "Nagler et al. 2000", "biochemical", none⟩

/-- Catalog entry NDLI. -/
def NDLI : SpectralIndex :=
  ⟨"NDLI", "Normalized Difference Lignin Index",
   fun b => "(log(1/" ++ b SWIR1 ++ ") - log(1/" ++ b SWIR2 ++ ")) / (log(1/" ++ b SWIR1 ++ ") + log(1/" ++ b SWIR2 ++ "))",
   [(SWIR1, .range 1680 1750), (SWIR2, .range 1754 1850)],
   "Serrano et al. 2002", "biochemical", none⟩

/-- Catalog entry PRI. -/
def PRI : SpectralIndex :=
  ⟨"PRI", "Photochemical Reflectance Index",
   fun b => "(" ++ b GREEN1 ++ " - " ++ b GREEN2 ++ ") / (" ++ b GREEN1 ++ " + " ++ b GREEN2 ++ ")",
   [(GREEN1, .range 528 532), (GREEN2, .range 565 570)],
   "Gamon et al. 1992", "biochemical", some (-1, 1)⟩

/-- Catalog entry SIPI. -/
def SIPI : SpectralIndex :=
  ⟨"SIPI", "Structure Insensitive Pigment Index",
   fun b => "(" ++ b NIR ++ " - " ++ b BLUE ++ ") / (" ++ b NIR ++ " - " ++ b RED ++ ")",
   [(BLUE, .range 445 455), (RED, .range 620 690), (NIR, .range 760 900)],
   "Penuelas et al. 1995", "biochemical", none⟩

/-- Catalog entry PSRI. -/
def PSRI : SpectralIndex :=
  ⟨"PSRI", "Plant Senescence Reflectance Index",
   fun b => "(" ++ b RED ++ " - " ++ b GREEN ++ ") / " ++ b REDEDGE,
   [(GREEN, .range 520 600), (RED, .range 620 690), (REDEDGE, .range 690 730)],
   "Merzlyak et al. 1999", "biochemical", none⟩

/-- Catalog entry NDWI. -/
def NDWI : SpectralIndex :=
  ⟨"NDWI", "Normalized Difference Water Index",
   fun b => "float(" ++ b GREEN ++ " - " ++ b NIR ++ ") / (" ++ b GREEN ++ " + " ++ b NIR ++ ")",
   [(GREEN, .range 520 600), (NIR, .range 760 900)],
   "McFeeters 1996", "water", some (-1, 1)⟩

/-- Catalog entry MNDWI. -/
def MNDWI : SpectralIndex :=
  ⟨"MNDWI", "Modified Normalized Difference Water Index",
   fun b => "float(" ++ b GREEN ++ " - " ++ b SWIR ++ ") / (" ++ b GREEN ++ " + " ++ b SWIR ++ ")",
   [(GREEN, .range 520 600), (SWIR, .range 1550 1750)],
   "Xu 2006", "water", some (-1, 1)⟩

/-- Catalog entry NDMI. -/
def NDMI : SpectralIndex :=
  ⟨"NDMI", "Normalized Difference Moisture Index",
   fun b => "float(" ++ b NIR ++ " - " ++ b SWIR ++ ") / (" ++ b NIR ++ " + " ++ b SWIR ++ ")",
   [(NIR, .range 760 900), (SWIR, .range 1550 1750)],
   "Wilson and Sader 2002", "water", some (-1, 1)⟩

/-- Catalog entry BI. -/
def BI : SpectralIndex :=
  ⟨"BI", "Brightness Index",
   fun b => "sqrt((" ++ b RED ++ "^2 + " ++ b GREEN ++ "^2) / 2)",
   [(GREEN, .range 520 600), (RED, .range 620 690)],
   "Escadafal et al. 1994", "soil", none⟩

/-- Catalog entry CI. -/
def CI : SpectralIndex :=
  ⟨"CI", "Coloration Index",
   fun b => "(" ++ b RED ++ " - " ++ b GREEN ++ ") / " ++ b RED,
   [(GREEN, .range 520 600), (RED, .range 620 690)],
   "Escadafal et al. 1994", "soil", none⟩

/-- Catalog entry RI. -/
def RI : SpectralIndex :=
  ⟨"RI", "Redness Index",
   fun b => b RED ++ "^2 / (" ++ b GREEN ++ "^3)",
   [(GREEN, .range 520 600), (RED, .range 620 690)],
   "Madeira et al. 1997", "soil", none⟩

/-- Catalog entry NDBI. -/
def NDBI : SpectralIndex :=
  ⟨"NDBI", "Normalized Difference Built-up Index",
   fun b => "float(" ++ b SWIR ++ " - " ++ b NIR ++ ") / (" ++ b SWIR ++ " + " ++ b NIR ++ ")",
   [(NIR, .range 760 900), (SWIR, .range 1550 1750)],
   "Zha et al. 2003", "urban", some (-1, 1)⟩

/-- Catalog entry UI. -/
def UI : SpectralIndex :=
  ⟨"UI", "Urban Index",
   fun b => "(" ++ b SWIR ++ " - " ++ b NIR ++ ") / (" ++ b SWIR ++ " + " ++ b NIR ++ ")",
   [(NIR, .range 760 900), (SWIR, .range 1550 1750)],
   "Kawamura et al. 1996", "urban", none⟩

/-- Catalog entry MSI. -/
def MSI : SpectralIndex :=
  ⟨"MSI", "Moisture Stress Index",
   fun b => b SWIR ++ " / " ++ b NIR,
   [(NIR, .range 760 900), (SWIR, .range 1550 1750)],
   "Rock et al. 1986", "stress", none⟩

/-- Catalog entry NDNI. -/
def NDNI : SpectralIndex :=
  ⟨"NDNI", "Normalized Difference Nitrogen Index",
   fun b => "(log(1/" ++ b NIR1 ++ ") - log(1/" ++ b NIR2 ++ ")) / (log(1/" ++ b NIR1 ++ ") + log(1/" ++ b NIR2 ++ "))",
   [(NIR1, .range 1510 1520), (NIR2, .range 1680 1690)],
   "Serrano et al. 2002", "stress", none⟩

/-- Catalog entry TCARI. -/
def TCARI : SpectralIndex :=
  ⟨"TCARI", "Transformed Chlorophyll Absorption Ratio",
   fun b => "3 * ((" ++ b REDEDGE ++ " - " ++ b RED ++ ") - 0.2 * (" ++ b REDEDGE ++ " - " ++ b GREEN ++ ") * (" ++ b REDEDGE ++ " / " ++ b RED ++ "))",
   [(GREEN, .range 520 600), (RED, .range 620 690), (REDEDGE, .range 690 730)],
   "Haboudane et al. 2002", "stress", none⟩

/-- Catalog entry HI. -/
def HI : SpectralIndex :=
  ⟨"HI", "Hydrocarbon Index - Oil & gas detection",
   fun b => "(" ++ b SWIR2200 ++ " * " ++ b SWIR2400 ++ ") / (" ++ b SWIR2300 ++ "^2)",
   [(SWIR2200, .range 2195 2205), (SWIR2300, .range 2295 2305), (SWIR2400, .range 2395 2405)],
   "Cloutis 1989", "materials", none⟩

/-- Catalog entry THI. -/
def THI : SpectralIndex :=
  ⟨"THI", "Tentative Hydrocarbon Index",
   fun b => "(" ++ b SWIR1730 ++ " + " ++ b SWIR2450 ++ ") / (2 * " ++ b SWIR2210 ++ ")",
   [(SWIR1730, .range 1725 1735), (SWIR2210, .range 2205 2215), (SWIR2450, .range 2445 2455)],
   "Kühn et al. 2004", "materials", none⟩

/-- Catalog entry OHI. -/
def OHI : SpectralIndex :=
  ⟨"OHI", "Oil and Hydrocarbon Index",
   fun b => "(" ++ b SWIR1650 ++ " + " ++ b SWIR2450 ++ ") / " ++ b SWIR2210,
   [(SWIR1650, .range 1645 1655), (SWIR2210, .range 2205 2215), (SWIR2450, .range 2445 2455)],
   "Lammoglia and Filho 2011", "materials", none⟩

/-- Catalog entry TPI. -/
def TPI : SpectralIndex :=
  ⟨"TPI", "Tar/Petroleum Index",
   fun b => b SWIR2300 ++ " / " ++ b SWIR1650,
   [(SWIR1650, .range 1645 1655), (SWIR2300, .range 2295 2305)],
   "Martinez and Le Toan 2007", "materials", none⟩

/-- Catalog entry COAL. -/
def COAL : SpectralIndex :=
  ⟨"COAL", "Coal/Carbon Index",
   fun b => "(" ++ b SWIR2200 ++ " / " ++ b SWIR1600 ++ ") * (" ++ b SWIR2200 ++ " / " ++ b NIR ++ ")",
   [(NIR, .range 760 900), (SWIR1600, .range 1595 1605), (SWIR2200, .range 2195 2205)],
   "van der Meer 1995", "materials", none⟩

/-- Catalog entry PLASTIC. -/
def PLASTIC : SpectralIndex :=
  ⟨"PLASTIC", "Plastic Detection Index",
   fun b => "(" ++ b NIR ++ " / " ++ b SWIR1600 ++ ") - (" ++ b SWIR2200 ++ " / " ++ b SWIR1600 ++ ")",
   [(NIR, .range 760 900), (SWIR1600, .range 1595 1605), (SWIR2200, .range 2195 2205)],
   "Garaba and Dierssen 2018", "materials", none⟩

/-- Catalog entry PDI. -/
def PDI : SpectralIndex :=
  ⟨"PDI", "Plastic Debris Index",
   fun b => "(" ++ b NIR ++ " - " ++ b RED ++ ") / (" ++ b NIR ++ " + " ++ b RED ++ ") - (" ++ b SWIR1600 ++ " - " ++ b NIR ++ ") / (" ++ b SWIR1600 ++ " + " ++ b NIR ++ ")",
   [(RED, .range 620 690), (NIR, .range 760 900), (SWIR1600, .range 1595 1605)],
   "Biermann et al. 2020", "materials", none⟩

/-- Catalog entry FPI. -/
def FPI : SpectralIndex :=
  ⟨"FPI", "Floating Plastic Index",
   fun b => b NIR ++ " / (" ++ b RED ++ " + " ++ b SWIR1600 ++ ") * 100",
   [(RED, .range 620 690), (NIR, .range 760 900), (SWIR1600, .range 1595 1605)],
   "Themistocleous et al. 2020", "materials", none⟩

/-- Catalog entry RSWIR. -/
def RSWIR : SpectralIndex :=
  ⟨"RSWIR", "Reversed SWIR Index - Marine debris",
   fun b => b SWIR1600 ++ " / " ++ b NIR,
   [(NIR, .range 760 900), (SWIR1600, .range 1595 1605)],
   "Kikaki et al. 2020", "materials", none⟩

/-- Catalog entry NDPI. -/
def NDPI : SpectralIndex :=
  ⟨"NDPI", "Normalized Difference Plastic Index",
   fun b => "(" ++ b SWIR1650 ++ " - " ++ b NIR ++ ") / (" ++ b SWIR1650 ++ " + " ++ b NIR ++ ")",
   [(NIR, .range 760 900), (SWIR1650, .range 1645 1655)],
   "Themistocleous et al. 2020", "materials", none⟩

/-- Catalog entry MPDI. -/
def MPDI : SpectralIndex :=
  ⟨"MPDI", "Marine Plastic Detection Index",
   fun b => "(" ++ b B490 ++ " - " ++ b B560 ++ ") / (" ++ b B490 ++ " + " ++ b B560 ++ ") + (" ++ b B665 ++ " - " ++ b B865 ++ ") / (" ++ b B665 ++ " + " ++ b B865 ++ ")",
   [(B490, .range 485 495), (B560, .range 555 565), (B665, .range 660 670), (B865, .range 860 870)],
   "Biermann et al. 2020", "materials", none⟩

/-- Catalog entry FERRIC. -/
def FERRIC : SpectralIndex :=
  ⟨"FERRIC", "Ferric Iron Index",
   fun b => b SWIR1650 ++ " / " ++ b B830,
   [(B830, .range 825 835), (SWIR1650, .range 1645 1655)],
   "Segal 1982", "materials", none⟩

/-- Catalog entry FERROUS. -/
def FERROUS : SpectralIndex :=
  ⟨"FERROUS", "Ferrous Iron Index",
   fun b => b SWIR1650 ++ " / " ++ b B1550,
   [(B1550, .range 1545 1555), (SWIR1650, .range 1645 1655)],
   "Segal 1982", "materials", none⟩

/-- Catalog entry LATERITE. -/
def LATERITE : SpectralIndex :=
  ⟨"LATERITE", "Laterite Index - Iron-rich materials",
   fun b => "(" ++ b SWIR1650 ++ " + " ++ b RED ++ ") / " ++ b NIR,
   [(RED, .range 620 690), (NIR, .range 760 900), (SWIR1650, .range 1645 1655)],
   "Pour and Hashim 2012", "materials", none⟩

/-- Catalog entry GOSSAN. -/
def GOSSAN : SpectralIndex :=
  ⟨"GOSSAN", "Gossan Index - Weathered sulfides",
   fun b => "(" ++ b RED ++ " * " ++ b SWIR1650 ++ ") / (" ++ b GREEN ++ "^2)",
   [(GREEN, .range 520 600), (RED, .range 620 690), (SWIR1650, .range 1645 1655)],
   "Rajendran and Nasir 2019", "materials", none⟩

/-- Catalog entry SINDEX. -/
def SINDEX : SpectralIndex :=
  ⟨"SINDEX", "S-Index - Soil/sediment composition",
   fun b => "sqrt(" ++ b RED ++ " * " ++ b NIR ++ ")",
   [(RED, .range 620 690), (NIR, .range 760 900)],
   "Escadafal and Huete 1991", "materials", none⟩

/-- Catalog entry PAINT. -/
def PAINT : SpectralIndex :=
  ⟨"PAINT", "Paint Detection Index (synthetic coatings)",
   fun b => "(" ++ b B450 ++ " + " ++ b B650 ++ ") / (2 * " ++ b B550 ++ ")",
   [(B450, .range 445 455), (B550, .range 545 555), (B650, .range 645 655)],
   "Based on pigment absorption features", "materials", none⟩

/-- Catalog entry ASPHALT. -/
def ASPHALT : SpectralIndex :=
  ⟨"ASPHALT", "Asphalt/Bitumen Index",
   fun b => "(" ++ b SWIR1600 ++ " - " ++ b SWIR2200 ++ ") / (" ++ b SWIR1600 ++ " + " ++ b SWIR2200 ++ ")",
   [(SWIR1600, .range 1595 1605), (SWIR2200, .range 2195 2205)],
   "Herold et al. 2004", "materials", none⟩

/-- Catalog entry CONCRETE. -/
def CONCRETE : SpectralIndex :=
  ⟨"CONCRETE", "Concrete Detection Index",
   fun b => "(" ++ b B500 ++ " + " ++ b SWIR2200 ++ ") / " ++ b NIR,
   [(B500, .range 495 505), (NIR, .range 760 900), (SWIR2200, .range 2195 2205)],
   "Dópido et al. 2012", "materials", none⟩

/-- The indices database as `_initialize_indices` fills it: an insertion-ordered
dict keyed by the index name, modelled as an association list in assignment
order (source lines 230-975). -/
def indices_db : List (String × SpectralIndex) :=
  [("NDVI", NDVI), ("EVI", EVI), ("SAVI", SAVI), ("MSAVI", MSAVI), ("GNDVI", GNDVI),
   ("NDRE", NDRE), ("CIrededge", CIrededge), ("MTCI", MTCI), ("MCARI", MCARI),
   ("REIP", REIP), ("ARVI", ARVI), ("VARI", VARI), ("DVI", DVI), ("TVI", TVI),
   ("ARI1", ARI1), ("ARI2", ARI2), ("CRI550", CRI550), ("CRI700", CRI700),
   ("CARI", CARI), ("MCARIOSAVI", MCARIOSAVI), ("GITELSON", GITELSON),
   ("GITELSON2", GITELSON2), ("MCARI1", MCARI1), ("MCARI2", MCARI2), ("RDVI", RDVI),
   ("MARI", MARI), ("VREI1", VREI1), ("VREI2", VREI2), ("DD", DD), ("WI", WI),
   ("NDWI1240", NDWI1240), ("NDWI2130", NDWI2130), ("LWCI", LWCI), ("NDII", NDII),
   ("SRWI", SRWI), ("DATT", DATT), ("CARTER1", CARTER1), ("CARTER2", CARTER2),
   ("GMI", GMI), ("NPQI", NPQI), ("NPCI", NPCI), ("RGRI", RGRI), ("CAI", CAI),
   ("NDLI", NDLI), ("PRI", PRI), ("SIPI", SIPI), ("PSRI", PSRI), ("NDWI", NDWI),
   ("MNDWI", MNDWI), ("NDMI", NDMI), ("BI", BI), ("CI", CI), ("RI", RI),
   ("NDBI", NDBI), ("UI", UI), ("MSI", MSI), ("NDNI", NDNI), ("TCARI", TCARI),
   ("HI", HI), ("THI", THI), ("OHI", OHI), ("TPI", TPI), ("COAL", COAL),
   ("PLASTIC", PLASTIC), ("PDI", PDI), ("FPI", FPI), ("RSWIR", RSWIR),
   ("NDPI", NDPI), ("MPDI", MPDI), ("FERRIC", FERRIC), ("FERROUS", FERROUS),
   ("LATERITE", LATERITE), ("GOSSAN", GOSSAN), ("SINDEX", SINDEX), ("PAINT", PAINT),
   ("ASPHALT", ASPHALT), ("CONCRETE", CONCRETE)]

/-- Python's `str.upper()` on the ASCII names this module handles, written
over the character list so that it evaluates inside the kernel
(`String.toUpper` itself is definitionally opaque to kernel reduction). -/
def py_upper (s : String) : String := ⟨s.data.map Char.toUpper⟩

/-- Python's `str.lower()`, same representation choice as `py_upper`. -/
def py_lower (s : String) : String := ⟨s.data.map Char.toLower⟩

/-- First-match association-list lookup: Python dict access (`d.get(k)` /
`d[k]`) on our association-list model of dicts. On a dict built by
`dict_of_pairs` the keys are unique, so first match is the dict's entry. -/
def lookupA {α β : Type} [DecidableEq α] : List (α × β) → α → Option β
  | [], _ => none
  | p :: rest, k => if p.1 = k then some p.2 else lookupA rest k

/-- `self.indices_db.get(name)`. -/
def db_get (name : String) : Option SpectralIndex :=
  lookupA indices_db name

/-- The target point of `find_closest_band`: the center of a range target,
or the single target value itself (source lines 1000-1004). -/
def target_center : BandReq → ℚ
  | .range lo hi => (lo + hi) / 2
  | .single t => t

/-- One step of Python's `min(..., key=lambda x: abs(x - c))`: the running
minimum is replaced only when the new candidate is strictly closer, so the
earliest-listed minimizer wins ties. -/
def pickCloser (c best y : ℚ) : ℚ := if |y - c| < |best - c| then y else best

/-- Embedding of `HyperspectralIndices.find_closest_band` (source lines
977-1008): the available wavelength closest to the target point, computed as
Python's `min` with an absolute-distance key. An empty list (a `ValueError`
in Python) is `none`. -/
def find_closest_band (wavelength_target : BandReq) (available_wavelengths : List ℚ) : Option ℚ :=
  match available_wavelengths with
  | [] => none
  | x :: xs => some (xs.foldl (pickCloser (target_center wavelength_target)) x)

/-- Reference definition written from the spec's words for comparison with
`find_closest_band`: keep the earliest-listed candidate unless a later one is
strictly closer to `c`. -/
def closestSpec (c : ℚ) : List ℚ → Option ℚ
  | [] => none
  | x :: xs =>
    match closestSpec c xs with
    | none => some x
    | some y => some (if |y - c| < |x - c| then y else x)

/-- The inner loop of `can_calculate_index` for one band requirement
(source lines 1038-1047): a range requirement is met by a wavelength inside
it (inclusive), a legacy single-target requirement by a wavelength within a
strict 50 nm tolerance. -/
def band_found (available_wavelengths : List ℚ) : BandReq → Bool
  | .range lo hi => available_wavelengths.any (fun wl => decide (lo ≤ wl ∧ wl ≤ hi))
  | .single t => available_wavelengths.any (fun wl => decide (|wl - t| < 50))

/-- The observable content of `can_calculate_index`'s `(bool, message)`
result: not found, the first missing band with its requirement (the message
interpolates exactly that band name and range), or OK. -/
inductive CanCalcResult
  | notFound
  | missing (band : Role) (req : BandReq)
  | ok
  deriving DecidableEq

/-- The band loop of `can_calculate_index` (source lines 1036-1052): the
first requirement with no matching available wavelength is reported;
later missing bands are never reached. -/
def first_missing (available_wavelengths : List ℚ) : List (Role × BandReq) → CanCalcResult
  | [] => .ok
  | (r, req) :: rest =>
    if band_found available_wavelengths req then first_missing available_wavelengths rest
    else .missing r req

/-- Embedding of `HyperspectralIndices.can_calculate_index` (source lines
1010-1052): the queried name is uppercased before the database lookup. -/
def can_calculate_index (index_name : String) (available_wavelengths : List ℚ) : CanCalcResult :=
  match db_get (py_upper index_name) with
  | none => .notFound
  | some index => first_missing available_wavelengths index.bands_required

/-- The role-binding loop of `get_band_mapping` (source lines 1081-1083):
for each required band, the closest available wavelength is selected from the
full key set and the role is bound to that wavelength's raster name. -/
def bind_roles (wavelength_to_band : List (ℚ × String)) (available_wl : List ℚ) :
    List (Role × BandReq) → Option (List (Role × String))
  | [] => some []
  | (r, req) :: rest => do
    let wl ← find_closest_band req available_wl
    let band ← lookupA wavelength_to_band wl
    let tail ← bind_roles wavelength_to_band available_wl rest
    pure ((r, band) :: tail)

/-- Embedding of `HyperspectralIndices.get_band_mapping` (source lines
1054-1085). `none` models the Python exceptions (`KeyError` on an unknown
name, `ValueError` from `min` on an empty wavelength set), which the source
never catches. -/
def get_band_mapping (index_name : String) (wavelength_to_band : List (ℚ × String)) :
    Option (List (Role × String)) :=
  match db_get (py_upper index_name) with
  | none => none
  | some index =>
    bind_roles wavelength_to_band (wavelength_to_band.map Prod.fst) index.bands_required

/-- One Python dict assignment `d[k] = v` on the association-list model: an
existing key keeps its position and gets the new value, a new key is
appended. -/
def dict_insert (d : List (ℚ × String)) (k : ℚ) (v : String) : List (ℚ × String) :=
  if d.any (fun p => decide (p.1 = k)) then d.map (fun p => if p.1 = k then (k, v) else p)
  else d ++ [(k, v)]

/-- `dict(zip(wavelengths, input_bands))` (source line 1229): inserting the
pairs left to right, so a repeated wavelength keeps its first position but
takes the band name supplied last. -/
def dict_of_pairs (ps : List (ℚ × String)) : List (ℚ × String) :=
  ps.foldl (fun d p => dict_insert d p.1 p.2) []

/-- Reference definition written from the spec's words: the band identifier
supplied LAST for a wavelength (later entries shadow earlier ones). -/
def last_value (ps : List (ℚ × String)) (k : ℚ) : Option String :=
  ps.foldl (fun acc p => if p.1 = k then some p.2 else acc) none

/-- The comparison `sorted(self.indices_db.items())` uses: Python tuple order
on `(name, index)` pairs, which is name order since names are unique. -/
def by_key (a b : String × SpectralIndex) : Prop := a.1 ≤ b.1

instance : DecidableRel by_key := fun a b => inferInstanceAs (Decidable (a.1 ≤ b.1))

instance : IsTotal (String × SpectralIndex) by_key := ⟨fun a b => le_total a.1 b.1⟩

instance : IsTrans (String × SpectralIndex) by_key := ⟨fun _ _ _ h h2 => le_trans h h2⟩

/-- `sorted(self.indices_db.items())` (source line 1105). -/
def sorted_items : List (String × SpectralIndex) :=
  List.insertionSort by_key indices_db

/-- Embedding of `HyperspectralIndices.list_indices` (source lines
1087-1110): the sorted items, filtered by theme when one is given (Python's
`if theme and index.theme != theme: continue`; a falsy theme — `None` or the
empty option string — is `none` here). -/
def list_indices (theme : Option String) : List SpectralIndex :=
  (sorted_items.filter (fun p =>
    match theme with
    | some t => decide (p.2.theme = t)
    | none => true)).map Prod.snd

/-- Embedding of `HyperspectralIndices.get_themes` (source lines 1112-1126):
the sorted set of themes present in the database. -/
def get_themes : List String :=
  List.insertionSort (fun a b => a ≤ b) ((indices_db.map (fun p => p.2.theme)).dedup)

/-- The index-selection block of `main` (source lines 1238-1254): a truthy
`theme` wins and expands through `list_indices`; otherwise `indices`
equal to `all` (case-insensitively) expands to every database key; otherwise
the comma-separated names are stripped and uppercased. -/
def select_indices (theme : Option String) (indices_str : String) : List String :=
  match theme with
  | some t => (list_indices (some t)).map SpectralIndex.name
  | none =>
    if py_lower indices_str = "all" then indices_db.map Prod.fst
    else (indices_str.splitOn (",")).map (fun s => py_upper s.trim)

/-- `output_name = f"{output_prefix}_{index_name}"` (source line 1294). -/
def output_name (pfx index_name : String) : String :=
  pfx ++ "_" ++ index_name

/-- Abstract syntax of the r.mapcalc expressions this module emits, with
`fcoerce` standing for the explicit `float(...)` coercion marker. -/
inductive MExpr
  | var (s : String)
  | lit (q : ℚ)
  | add (a b : MExpr)
  | sub (a b : MExpr)
  | mul (a b : MExpr)
  | div (a b : MExpr)
  | fcoerce (a : MExpr)

/-- Field (rational) semantics of an emitted expression; `float(...)` is a
representation coercion with no effect on the value. -/
def MExpr.eval (env : String → ℚ) : MExpr → ℚ
  | .var s => env s
  | .lit q => q
  | .add a b => a.eval env + b.eval env
  | .sub a b => a.eval env - b.eval env
  | .mul a b => a.eval env * b.eval env
  | .div a b => a.eval env / b.eval env
  | .fcoerce a => a.eval env

/-- Rendering of the expression shapes the module emits (denominators are
parenthesized, as in the source's f-strings). -/
def MExpr.render : MExpr → String
  | .var s => s
  | .lit q => toString q
  | .add a b => a.render ++ " + " ++ b.render
  | .sub a b => a.render ++ " - " ++ b.render
  | .mul a b => a.render ++ " * " ++ b.render
  | .div a b => a.render ++ " / (" ++ b.render ++ ")"
  | .fcoerce a => "float(" ++ a.render ++ ")"

/-- The NDVI formula as an expression tree over the two resolved raster
names: `float(nir - red) / (nir + red)`. -/
def ndvi_expr (red nir : String) : MExpr :=
  .div (.fcoerce (.sub (.var nir) (.var red))) (.add (.var nir) (.var red))

/-- A role binding as the function the formula lambdas consume. The default
`""` is never reached on bindings produced by `get_band_mapping`, whose keys
are exactly the required roles (a missing key would be a Python `KeyError`). -/
def roleFun (m : List (Role × String)) : Role → String :=
  fun r => (lookupA m r).getD ""

/-- The normalization expression of `main` (source line 1307):
`({output_name} - {min_val}) / ({max_val} - {min_val})` over the materialized
primary output. -/
def norm_expr (outName : String) (min_val max_val : ℚ) : MExpr :=
  .div (.sub (.var outName) (.lit min_val)) (.sub (.lit max_val) (.lit min_val))

/-- The normalization branch of `main` (source lines 1304-1311): when the
flag is set and the index carries a truthy `normalize_range`, the second
expression is emitted; otherwise the step is skipped silently. -/
def normalization_step (nflag : Bool) (index_def : SpectralIndex) (outName : String) :
    Option MExpr :=
  if nflag then
    match index_def.normalize_range with
    | some (mn, mx) => some (norm_expr outName mn mx)
    | none => none
  else none

/-- Per-index outcome of the calculation loop of `main`. -/
inductive Outcome
  | calculated
  | skippedUnknown
  | skippedCannotCalc (r : CanCalcResult)
  | skippedEngine
  deriving DecidableEq

/-- One iteration of the calculation loop of `main` (source lines 1266-1327).
`engine_ok` abstracts the external raster engine: whether the `r.mapcalc` /
`g.rename` / `r.colors` block for a given output name succeeds or raises
`CalledModuleError` (the only exception the loop catches). The outer `none`
models an uncaught exception out of `get_band_mapping`, which cannot happen
when the wavelength dict is non-empty. -/
def process_index (engine_ok : String → Bool) (wavelengths : List ℚ)
    (wtb : List (ℚ × String)) (pfx : String) (index_name : String) : Option Outcome :=
  if (indices_db.map Prod.fst).any (fun k => decide (k = index_name)) then
    match can_calculate_index index_name wavelengths with
    | CanCalcResult.ok =>
      match get_band_mapping index_name wtb with
      | some _mapping =>
        some (if engine_ok (output_name pfx index_name) then Outcome.calculated
              else Outcome.skippedEngine)
      | none => none
    | r => some (Outcome.skippedCannotCalc r)
  else some Outcome.skippedUnknown

/-- The calculation loop of `main` with its `calculated` / `skipped`
counters (source lines 1260-1331), ending in the summary counts. -/
def tally (engine_ok : String → Bool) (wavelengths : List ℚ) (wtb : List (ℚ × String))
    (pfx : String) : List String → Nat × Nat → Option (Nat × Nat)
  | [], acc => some acc
  | n :: rest, acc =>
    match process_index engine_ok wavelengths wtb pfx n with
    | none => none
    | some Outcome.calculated => tally engine_ok wavelengths wtb pfx rest (acc.1 + 1, acc.2)
    | some _ => tally engine_ok wavelengths wtb pfx rest (acc.1, acc.2 + 1)

theorem foldl_pickCloser (c : ℚ) : ∀ (xs : List ℚ) (x : ℚ),
    xs.foldl (pickCloser c) x =
      (match closestSpec c xs with
       | none => x
       | some y => pickCloser c x y)
  | [], _ => rfl
  | y :: ys, x => by
    rw [List.foldl_cons, foldl_pickCloser c ys (pickCloser c x y)]
    cases h : closestSpec c ys with
    | none => simp only [closestSpec, h]
    | some z =>
      simp only [closestSpec, h]
      unfold pickCloser
      split_ifs <;> first | rfl | (exfalso; linarith)

theorem closestSpec_eq_none (c : ℚ) : ∀ (l : List ℚ), closestSpec c l = none → l = []
  | [] => fun _ => rfl
  | _ :: xs => by
    intro h
    exfalso
    cases h' : closestSpec c xs <;> simp only [closestSpec, h'] at h <;>
      exact Option.noConfusion h

theorem closestSpec_mem (c : ℚ) : ∀ (l : List ℚ) (w : ℚ), closestSpec c l = some w → w ∈ l
  | [], w => by simp [closestSpec]
  | x :: xs, w => by
    intro h
    cases h' : closestSpec c xs with
    | none =>
      simp only [closestSpec, h', Option.some.injEq] at h
      subst h
      exact List.mem_cons_self x xs
    | some y =>
      simp only [closestSpec, h', Option.some.injEq] at h
      subst h
      split_ifs with hc
      · exact List.mem_cons_of_mem x (closestSpec_mem c xs y h')
      · exact List.mem_cons_self x xs

theorem closestSpec_min (c : ℚ) : ∀ (l : List ℚ) (w : ℚ), closestSpec c l = some w →
    ∀ v ∈ l, |w - c| ≤ |v - c|
  | [], w => by simp [closestSpec]
  | x :: xs, w => by
    intro h v hv
    cases h' : closestSpec c xs with
    | none =>
      have hnil := closestSpec_eq_none c xs h'
      subst hnil
      simp only [closestSpec, Option.some.injEq] at h
      subst h
      simp only [List.mem_singleton] at hv
      subst hv
      exact le_refl _
    | some y =>
      simp only [closestSpec, h', Option.some.injEq] at h
      have hy := closestSpec_min c xs y h'
      rcases List.mem_cons.mp hv with rfl | hv'
      · subst h
        split_ifs with hc
        · exact le_of_lt hc
        · exact le_refl _
      · subst h
        split_ifs with hc
        · exact hy v hv'
        · exact le_trans (not_lt.mp hc) (hy v hv')

theorem closestSpec_find (c : ℚ) : ∀ (l : List ℚ) (w : ℚ), closestSpec c l = some w →
    l.find? (fun v => decide (|v - c| ≤ |w - c|)) = some w
  | [], w => by simp [closestSpec]
  | x :: xs, w => by
    intro h
    cases h' : closestSpec c xs with
    | none =>
      have hnil := closestSpec_eq_none c xs h'
      subst hnil
      simp only [closestSpec, Option.some.injEq] at h
      subst h
      simp
    | some y =>
      simp only [closestSpec, h', Option.some.injEq] at h
      by_cases hc : |y - c| < |x - c|
      · rw [if_pos hc] at h
        subst h
        have hx : ¬((fun v => decide (|v - c| ≤ |y - c|)) x = true) := by
          simp only [decide_eq_true_iff, not_le]
          exact hc
        rw [List.find?_cons_of_neg xs hx, closestSpec_find c xs y h']
      · rw [if_neg hc] at h
        subst h
        exact List.find?_cons_of_pos _ (by simp)

theorem find_closest_band_eq_spec (t : BandReq) (l : List ℚ) :
    find_closest_band t l = closestSpec (target_center t) l := by
  cases l with
  | nil => rfl
  | cons x xs =>
    simp only [find_closest_band, foldl_pickCloser]
    cases h : closestSpec (target_center t) xs with
    | none =>
      have hnil := closestSpec_eq_none _ _ h
      subst hnil
      simp [closestSpec]
    | some y => simp [closestSpec, h, pickCloser]

theorem lookupA_isSome_of_mem {α β : Type} [DecidableEq α] :
    ∀ (ps : List (α × β)) (k : α), k ∈ ps.map Prod.fst → ∃ v, lookupA ps k = some v
  | [], k => by simp
  | p :: rest, k => by
    intro h
    by_cases hk : p.1 = k
    · exact ⟨p.2, by simp [lookupA, hk]⟩
    · have hmem : k ∈ rest.map Prod.fst := by
        simp only [List.map_cons, List.mem_cons] at h
        rcases h with h | h
        · exact absurd h.symm hk
        · exact h
      obtain ⟨v, hv⟩ := lookupA_isSome_of_mem rest k hmem
      exact ⟨v, by simp [lookupA, hk, hv]⟩

theorem lookupA_eq_none {α β : Type} [DecidableEq α] :
    ∀ (ps : List (α × β)) (k : α), (∀ p ∈ ps, ¬(p.1 = k)) → lookupA ps k = none
  | [], _ => fun _ => rfl
  | p :: rest, k => by
    intro h
    have hp := h p (List.mem_cons_self p rest)
    simp only [lookupA, if_neg hp]
    exact lookupA_eq_none rest k (fun q hq => h q (List.mem_cons_of_mem p hq))

theorem lookupA_append {α β : Type} [DecidableEq α] :
    ∀ (d e : List (α × β)) (k : α), lookupA (d ++ e) k =
      (match lookupA d k with
       | some v => some v
       | none => lookupA e k)
  | [], _, _ => rfl
  | p :: d, e, k => by
    by_cases hk : p.1 = k
    · simp [lookupA, hk]
    · simp only [List.cons_append, lookupA, if_neg hk]
      exact lookupA_append d e k

theorem lookupA_map_update {β : Type} :
    ∀ (d : List (ℚ × β)) (a k : ℚ) (b : β),
      lookupA (d.map (fun p => if p.1 = a then (a, b) else p)) k =
        if a = k then (if (lookupA d a).isSome then some b else none)
        else lookupA d k
  | [], a, k, b => by simp [lookupA]
  | p :: d, a, k, b => by
    simp only [List.map_cons, lookupA, lookupA_map_update d a k b]
    by_cases hp : p.1 = a <;> by_cases hk : a = k
    · simp_all [lookupA]
    · simp_all [lookupA]
    · simp_all [lookupA]
    · have hka : ¬k = a := fun h => hk h.symm
      simp_all [lookupA]

theorem lookupA_dict_insert (d : List (ℚ × String)) (a k : ℚ) (b : String) :
    lookupA (dict_insert d a b) k = if a = k then some b else lookupA d k := by
  by_cases hmem : (d.any fun p => decide (p.1 = a)) = true
  · rw [dict_insert, if_pos hmem, lookupA_map_update]
    have hsome : (lookupA d a).isSome = true := by
      rcases List.any_eq_true.mp hmem with ⟨p, hp, hpa⟩
      have hpa' : p.1 = a := of_decide_eq_true hpa
      obtain ⟨v, hv⟩ := lookupA_isSome_of_mem d a
        (List.mem_map.mpr ⟨p, hp, hpa'⟩)
      simp [hv]
    rw [hsome]
    simp
  · rw [dict_insert, if_neg hmem, lookupA_append]
    have hnone : lookupA d a = none := by
      refine lookupA_eq_none d a (fun p hp hpa => ?_)
      exact hmem (List.any_eq_true.mpr ⟨p, hp, decide_eq_true hpa⟩)
    by_cases hk : a = k
    · subst hk
      rw [hnone]
      simp [lookupA]
    · rw [if_neg hk]
      cases hd : lookupA d k with
      | none => simp [lookupA, hk]
      | some v => simp

theorem lookupA_dict_of_pairs_aux :
    ∀ (ps : List (ℚ × String)) (d : List (ℚ × String)) (k : ℚ),
      lookupA (ps.foldl (fun d p => dict_insert d p.1 p.2) d) k =
        ps.foldl (fun acc p => if p.1 = k then some p.2 else acc) (lookupA d k)
  | [], _, _ => rfl
  | p :: ps, d, k => by
    rw [List.foldl_cons, List.foldl_cons, lookupA_dict_of_pairs_aux ps _ k,
      lookupA_dict_insert]

theorem lookupA_dict_of_pairs (ps : List (ℚ × String)) (k : ℚ) :
    lookupA (dict_of_pairs ps) k = last_value ps k := by
  unfold dict_of_pairs last_value
  rw [lookupA_dict_of_pairs_aux]
  rfl

theorem dict_insert_ne_nil (d : List (ℚ × String)) (a : ℚ) (b : String) :
    dict_insert d a b ≠ [] := by
  unfold dict_insert
  split_ifs with h
  · cases d with
    | nil => simp at h
    | cons p d => simp
  · simp

theorem dict_of_pairs_aux_ne_nil :
    ∀ (ps : List (ℚ × String)) (d : List (ℚ × String)), d ≠ [] →
      ps.foldl (fun d p => dict_insert d p.1 p.2) d ≠ []
  | [], _ => fun h => h
  | p :: ps, d => fun _ =>
    dict_of_pairs_aux_ne_nil ps (dict_insert d p.1 p.2) (dict_insert_ne_nil d p.1 p.2)

theorem dict_of_pairs_ne_nil (ps : List (ℚ × String)) (h : ps ≠ []) :
    dict_of_pairs ps ≠ [] := by
  cases ps with
  | nil => exact absurd rfl h
  | cons p ps =>
    unfold dict_of_pairs
    rw [List.foldl_cons]
    exact dict_of_pairs_aux_ne_nil ps _ (dict_insert_ne_nil [] p.1 p.2)

theorem find_closest_band_total (t : BandReq) (l : List ℚ) (h : l ≠ []) :
    ∃ w, find_closest_band t l = some w ∧ w ∈ l := by
  rw [find_closest_band_eq_spec]
  cases hc : closestSpec (target_center t) l with
  | none => exact absurd (closestSpec_eq_none _ _ hc) h
  | some w => exact ⟨w, rfl, closestSpec_mem _ _ _ hc⟩

theorem bind_roles_spec (wtb : List (ℚ × String)) (hne : wtb ≠ []) :
    ∀ (roles : List (Role × BandReq)),
      ∃ m, bind_roles wtb (wtb.map Prod.fst) roles = some m ∧
        m.map Prod.fst = roles.map Prod.fst ∧
        ∀ r req, (r, req) ∈ roles → ∃ wl bnd,
          find_closest_band req (wtb.map Prod.fst) = some wl ∧
          lookupA wtb wl = some bnd ∧ (r, bnd) ∈ m
  | [] => ⟨[], rfl, rfl, by simp⟩
  | (r, req) :: rest => by
    obtain ⟨m, hm, hkeys, hmem⟩ := bind_roles_spec wtb hne rest
    have hkeysne : wtb.map Prod.fst ≠ [] := by
      intro hnil
      exact hne (List.map_eq_nil_iff.mp hnil)
    obtain ⟨wl, hwl, hwlmem⟩ := find_closest_band_total req _ hkeysne
    obtain ⟨bnd, hbnd⟩ := lookupA_isSome_of_mem wtb wl hwlmem
    refine ⟨(r, bnd) :: m, ?_, ?_, ?_⟩
    · simp [bind_roles, hwl, hbnd, hm]
    · simp [hkeys]
    · intro r' req' hmem'
      rcases List.mem_cons.mp hmem' with heq | htail
      · obtain ⟨h1, h2⟩ := Prod.mk.injEq .. ▸ heq
        subst h1 h2
        exact ⟨wl, bnd, hwl, hbnd, List.mem_cons_self _ _⟩
      · obtain ⟨wl', bnd', h1, h2, h3⟩ := hmem r' req' htail
        exact ⟨wl', bnd', h1, h2, List.mem_cons_of_mem _ h3⟩

theorem band_found_range_iff (avail : List ℚ) (lo hi : ℚ) :
    band_found avail (.range lo hi) = true ↔ ∃ w ∈ avail, lo ≤ w ∧ w ≤ hi := by
  simp [band_found, List.any_eq_true]

theorem band_found_single_iff (avail : List ℚ) (t : ℚ) :
    band_found avail (.single t) = true ↔ ∃ w ∈ avail, |w - t| < 50 := by
  simp [band_found, List.any_eq_true]

theorem first_missing_ok_iff (avail : List ℚ) :
    ∀ (roles : List (Role × BandReq)),
      first_missing avail roles = .ok ↔ ∀ p ∈ roles, band_found avail p.2 = true
  | [] => by simp [first_missing]
  | (r, req) :: rest => by
    simp only [first_missing]
    split_ifs with h
    · rw [first_missing_ok_iff avail rest]
      simp [List.forall_mem_cons, h]
    · simp only [List.forall_mem_cons]
      constructor
      · intro hcontra
        cases hcontra
      · intro hall
        exact absurd hall.1 h

theorem first_missing_missing (avail : List ℚ) :
    ∀ (roles : List (Role × BandReq)) (r : Role) (req : BandReq),
      first_missing avail roles = .missing r req →
      ∃ p q, roles = p ++ (r, req) :: q ∧ (∀ x ∈ p, band_found avail x.2 = true) ∧
        band_found avail req = false
  | [], r, req => by simp [first_missing]
  | (r0, req0) :: rest, r, req => by
    intro h
    simp only [first_missing] at h
    split_ifs at h with hb
    · obtain ⟨p, q, h1, h2, h3⟩ := first_missing_missing avail rest r req h
      refine ⟨(r0, req0) :: p, q, by rw [h1]; rfl, ?_, h3⟩
      intro x hx
      rcases List.mem_cons.mp hx with rfl | hx'
      · exact hb
      · exact h2 x hx'
    · cases h
      exact ⟨[], rest, rfl, by simp, by simpa using hb⟩

theorem can_calculate_ok_db (n : String) (w : List ℚ)
    (h : can_calculate_index n w = .ok) : ∃ idx, db_get (py_upper n) = some idx := by
  unfold can_calculate_index at h
  cases hdb : db_get (py_upper n) with
  | none =>
    rw [hdb] at h
    exact CanCalcResult.noConfusion h
  | some idx => exact ⟨idx, rfl⟩

theorem get_band_mapping_total (n : String) (idx : SpectralIndex)
    (wtb : List (ℚ × String)) (hdb : db_get (py_upper n) = some idx) (hne : wtb ≠ []) :
    ∃ m, get_band_mapping n wtb = some m ∧
      m.map Prod.fst = idx.bands_required.map Prod.fst ∧
      ∀ r req, (r, req) ∈ idx.bands_required → ∃ wl bnd,
        find_closest_band req (wtb.map Prod.fst) = some wl ∧
        lookupA wtb wl = some bnd ∧ (r, bnd) ∈ m := by
  obtain ⟨m, hm, hkeys, hmem⟩ := bind_roles_spec wtb hne idx.bands_required
  refine ⟨m, ?_, hkeys, hmem⟩
  unfold get_band_mapping
  rw [hdb]
  exact hm

theorem process_index_some (eo : String → Bool) (w : List ℚ) (wtb : List (ℚ × String))
    (pfx n : String) (hne : wtb ≠ []) : ∃ o, process_index eo w wtb pfx n = some o := by
  unfold process_index
  by_cases hmem : ((indices_db.map Prod.fst).any fun k => decide (k = n)) = true
  · rw [if_pos hmem]
    cases hcc : can_calculate_index n w with
    | ok =>
      obtain ⟨idx, hdb⟩ := can_calculate_ok_db n w hcc
      obtain ⟨m, hm, -, -⟩ := get_band_mapping_total n idx wtb hdb hne
      rw [hm]
      exact ⟨_, rfl⟩
    | notFound => exact ⟨_, rfl⟩
    | missing r req => exact ⟨_, rfl⟩
  · rw [if_neg hmem]
    exact ⟨_, rfl⟩

theorem tally_sum (eo : String → Bool) (w : List ℚ) (wtb : List (ℚ × String))
    (pfx : String) (hne : wtb ≠ []) : ∀ (names : List String) (acc : Nat × Nat),
    ∃ c s, tally eo w wtb pfx names acc = some (c, s) ∧
      c + s = acc.1 + acc.2 + names.length
  | [], acc => ⟨acc.1, acc.2, rfl, by simp⟩
  | n :: rest, acc => by
    obtain ⟨o, ho⟩ := process_index_some eo w wtb pfx n hne
    cases o with
    | calculated =>
      obtain ⟨c, s, h1, h2⟩ := tally_sum eo w wtb pfx hne rest (acc.1 + 1, acc.2)
      refine ⟨c, s, by simp [tally, ho, h1], ?_⟩
      simp only [List.length_cons]
      omega
    | skippedUnknown =>
      obtain ⟨c, s, h1, h2⟩ := tally_sum eo w wtb pfx hne rest (acc.1, acc.2 + 1)
      refine ⟨c, s, by simp [tally, ho, h1], ?_⟩
      simp only [List.length_cons]
      omega
    | skippedCannotCalc r =>
      obtain ⟨c, s, h1, h2⟩ := tally_sum eo w wtb pfx hne rest (acc.1, acc.2 + 1)
      refine ⟨c, s, by simp [tally, ho, h1], ?_⟩
      simp only [List.length_cons]
      omega
    | skippedEngine =>
      obtain ⟨c, s, h1, h2⟩ := tally_sum eo w wtb pfx hne rest (acc.1, acc.2 + 1)
      refine ⟨c, s, by simp [tally, ho, h1], ?_⟩
      simp only [List.length_cons]
      omega

theorem name_eq_key : ∀ p ∈ indices_db, p.1 = p.2.name := by decide

theorem keys_nodup : (indices_db.map Prod.fst).Nodup := by decide

theorem sorted_items_perm : List.Perm sorted_items indices_db :=
  List.perm_insertionSort by_key indices_db

theorem sorted_items_sorted : List.Sorted by_key sorted_items :=
  List.sorted_insertionSort by_key indices_db

theorem list_indices_none_eq : list_indices none = sorted_items.map Prod.snd := by
  show (sorted_items.filter (fun _ => true)).map Prod.snd = sorted_items.map Prod.snd
  rw [List.filter_true]

theorem list_indices_some_eq (t : String) :
    list_indices (some t) =
      (sorted_items.filter (fun p => decide (p.2.theme = t))).map Prod.snd := rfl

theorem mem_list_indices_none (x : SpectralIndex) :
    x ∈ list_indices none ↔ x ∈ indices_db.map Prod.snd := by
  rw [list_indices_none_eq]
  exact (sorted_items_perm.map Prod.snd).mem_iff

theorem mem_list_indices_some (t : String) (x : SpectralIndex) :
    x ∈ list_indices (some t) ↔ x ∈ list_indices none ∧ x.theme = t := by
  rw [list_indices_some_eq, list_indices_none_eq]
  constructor
  · intro hx
    obtain ⟨p, hp, rfl⟩ := List.mem_map.mp hx
    have hpf := List.mem_filter.mp hp
    exact ⟨List.mem_map_of_mem Prod.snd hpf.1, of_decide_eq_true hpf.2⟩
  · rintro ⟨hx, ht⟩
    obtain ⟨p, hp, rfl⟩ := List.mem_map.mp hx
    exact List.mem_map_of_mem Prod.snd (List.mem_filter.mpr ⟨hp, decide_eq_true ht⟩)

theorem theme_mem_get_themes (x : SpectralIndex) (hx : x ∈ indices_db.map Prod.snd) :
    x.theme ∈ get_themes := by
  unfold get_themes
  rw [(List.perm_insertionSort _ _).mem_iff, List.mem_dedup]
  obtain ⟨p, hp, rfl⟩ := List.mem_map.mp hx
  exact List.mem_map.mpr ⟨p, hp, rfl⟩

theorem get_themes_nodup : get_themes.Nodup :=
  (List.perm_insertionSort _ _).nodup_iff.mpr (List.nodup_dedup _)

theorem get_themes_sorted : get_themes.Sorted (fun a b : String => a ≤ b) :=
  List.sorted_insertionSort _ _

theorem list_indices_sorted_names (th : Option String) :
    ((list_indices th).map SpectralIndex.name).Pairwise (fun a b : String => a ≤ b) := by
  unfold list_indices
  have hs : sorted_items.Pairwise by_key := sorted_items_sorted
  have hsub := List.filter_sublist (l := sorted_items)
    (p := fun p => match th with | some t => decide (p.2.theme = t) | none => true)
  have h1 := List.Pairwise.sublist hsub hs
  have hmemdb : ∀ p ∈ sorted_items.filter
      (fun p => match th with | some t => decide (p.2.theme = t) | none => true),
      p ∈ indices_db :=
    fun p hp => sorted_items_perm.mem_iff.mp (hsub.subset hp)
  have h2 := h1.imp_of_mem (S := fun p q => p.2.name ≤ q.2.name)
    (fun {a b} ha hb hr => by
      show a.2.name ≤ b.2.name
      rw [← name_eq_key a (hmemdb a ha), ← name_eq_key b (hmemdb b hb)]
      exact hr)
  rw [List.map_map, List.pairwise_map]
  exact h2

theorem list_indices_none_names_nodup :
    ((list_indices none).map SpectralIndex.name).Nodup := by
  rw [list_indices_none_eq, List.map_map]
  have hperm : List.Perm (sorted_items.map (fun p => p.2.name))
      (indices_db.map (fun p => p.2.name)) :=
    sorted_items_perm.map _
  refine hperm.nodup_iff.mpr ?_
  have heq : indices_db.map (fun p => p.2.name) = indices_db.map Prod.fst :=
    List.map_congr_left (fun p hp => (name_eq_key p hp).symm)
  rw [heq]
  exact keys_nodup

theorem list_indices_none_perm : List.Perm (list_indices none) (indices_db.map Prod.snd) := by
  rw [list_indices_none_eq]
  exact sorted_items_perm.map Prod.snd

theorem flatMap_congr {α β : Type} :
    ∀ (ts : List α) (f g : α → List β), (∀ t ∈ ts, f t = g t) →
      ts.flatMap f = ts.flatMap g
  | [], _, _, _ => rfl
  | a :: as, f, g, h => by
    rw [List.flatMap_cons, List.flatMap_cons, h a (List.mem_cons_self a as),
      flatMap_congr as f g (fun x hx => h x (List.mem_cons_of_mem a hx))]

theorem list_indices_some_filter (t : String) :
    list_indices (some t) = (list_indices none).filter (fun x => decide (x.theme = t)) := by
  rw [list_indices_some_eq, list_indices_none_eq, List.filter_map]
  rfl

theorem partition_flatMap :
    ∀ (ts : List String) (l : List SpectralIndex), ts.Nodup →
      (∀ x ∈ l, x.theme ∈ ts) →
      List.Perm (ts.flatMap (fun t => l.filter (fun x => decide (x.theme = t)))) l
  | [], l, _, hcov => by
    cases l with
    | nil => exact List.Perm.refl _
    | cons x xs => exact absurd (hcov x (List.mem_cons_self x xs)) (List.not_mem_nil _)
  | t :: ts, l, hnd, hcov => by
    have hnd' := List.nodup_cons.mp hnd
    have hstep : ∀ t' ∈ ts, l.filter (fun x => decide (x.theme = t')) =
        (l.filter (fun x => !decide (x.theme = t))).filter
          (fun x => decide (x.theme = t')) := by
      intro t' ht'
      rw [List.filter_filter]
      refine (List.filter_congr (fun a _ => ?_)).symm
      by_cases hat : a.theme = t'
      · have htt : ¬t' = t := fun hc => hnd'.1 (hc ▸ ht')
        have hne : ¬(a.theme = t) := by
          rw [hat]
          exact htt
        simp [hat, hne, htt]
      · simp [hat]
    have hcov' : ∀ x ∈ l.filter (fun x => !decide (x.theme = t)), x.theme ∈ ts := by
      intro x hx
      have hxf := List.mem_filter.mp hx
      rcases List.mem_cons.mp (hcov x hxf.1) with h | h
      · exfalso
        have := hxf.2
        simp [h] at this
      · exact h
    have hIH := partition_flatMap ts (l.filter (fun x => !decide (x.theme = t)))
      hnd'.2 hcov'
    refine List.Perm.trans ?_
      (List.filter_append_perm (fun x => decide (x.theme = t)) l)
    rw [List.flatMap_cons, flatMap_congr ts _ _ hstep]
    exact List.Perm.append_left _ hIH

theorem list_indices_names_nodup (th : Option String) :
    ((list_indices th).map SpectralIndex.name).Nodup := by
  cases th with
  | none => exact list_indices_none_names_nodup
  | some t =>
    rw [list_indices_some_filter]
    exact List.Nodup.sublist ((List.filter_sublist _).map _) list_indices_none_names_nodup

theorem list_indices_sorted_names_strict (th : Option String) :
    ((list_indices th).map SpectralIndex.name).Pairwise (fun a b : String => a < b) :=
  ((list_indices_sorted_names th).and (list_indices_names_nodup th)).imp
    (fun hab => lt_of_le_of_ne hab.1 hab.2)

theorem themes_flatMap_perm :
    List.Perm (get_themes.flatMap (fun t => list_indices (some t))) (list_indices none) := by
  have hcov : ∀ x ∈ list_indices none, x.theme ∈ get_themes :=
    fun x hx => theme_mem_get_themes x ((mem_list_indices_none x).mp hx)
  have h := partition_flatMap get_themes (list_indices none) get_themes_nodup hcov
  rw [flatMap_congr get_themes _ _ (fun t _ => list_indices_some_filter t)]
  exact h

section

attribute [local semireducible] Rat.add Rat.sub Rat.mul Rat.inv Rat.ofScientific

/-- C1: the claim says every catalog name is canonicalized to uppercase and
every case variant of a name resolves through `can_calculate_index`. The code
violates it: the catalog key `CIrededge` is mixed-case, while
`can_calculate_index` uppercases the queried name before the lookup, so no
case variant of that name (not even the stored spelling itself) is ever
found; every other key is uppercase and behaves as claimed. -/
theorem C1_mixed_case_key_bug :
    ("CIrededge") ∈ indices_db.map Prod.fst ∧
    py_upper ("CIrededge") ≠ "CIrededge" ∧
    can_calculate_index ("CIrededge") [700, 800] = CanCalcResult.notFound ∧
    can_calculate_index ("cirededge") [700, 800] = CanCalcResult.notFound ∧
    can_calculate_index ("CIREDEDGE") [700, 800] = CanCalcResult.notFound ∧
    (∀ p ∈ indices_db, p.1 ≠ "CIrededge" → py_upper p.1 = p.1) ∧
    (∀ avail : List ℚ, can_calculate_index ("CIrededge") avail = CanCalcResult.notFound) :=
  ⟨by decide, by decide, by decide, by decide, by decide, by decide, fun _ => rfl⟩

/-- C2: `find_closest_band` equals the earliest-minimizer specification: its
result is a member of the available list minimizing absolute distance to the
target point (midpoint of a range, the value itself for a single target), on
a tie the earliest-listed candidate wins (the first list element within the
minimal distance is the result), and on bands `[665, 850]` target range
`(760, 900)` yields `850` while `(620, 690)` yields `665`. -/
theorem C2_find_closest_band_correct :
    (∀ (t : BandReq) (l : List ℚ), find_closest_band t l = closestSpec (target_center t) l) ∧
    (∀ (t : BandReq) (l : List ℚ) (w : ℚ), find_closest_band t l = some w →
      w ∈ l ∧ (∀ v ∈ l, |w - target_center t| ≤ |v - target_center t|) ∧
      l.find? (fun v => decide (|v - target_center t| ≤ |w - target_center t|)) = some w) ∧
    (∀ lo hi : ℚ, target_center (.range lo hi) = (lo + hi) / 2) ∧
    (∀ q : ℚ, target_center (.single q) = q) ∧
    find_closest_band (.range 760 900) [665, 850] = some 850 ∧
    find_closest_band (.range 620 690) [665, 850] = some 665 := by
  refine ⟨find_closest_band_eq_spec, ?_, fun lo hi => rfl, fun q => rfl, by decide, by decide⟩
  intro t l w h
  rw [find_closest_band_eq_spec] at h
  exact ⟨closestSpec_mem _ _ _ h, closestSpec_min _ _ _ h, closestSpec_find _ _ _ h⟩

/-- Witness for C2 at the concrete input of the claim: bands `[665, 850]`,
target range `(760, 900)`, result `850`. -/
theorem C2_find_closest_band_witness :
    (850 : ℚ) ∈ ([665, 850] : List ℚ) ∧
    (∀ v ∈ ([665, 850] : List ℚ),
      |850 - target_center (.range 760 900)| ≤ |v - target_center (.range 760 900)|) ∧
    ([665, 850] : List ℚ).find?
      (fun v => decide (|v - target_center (.range 760 900)| ≤
        |(850 : ℚ) - target_center (.range 760 900)|)) = some 850 :=
  C2_find_closest_band_correct.2.1 (.range 760 900) [665, 850] 850 (by decide)

/-- C3: a range requirement is satisfied iff some available wavelength lies
inside it inclusively on both ends, a legacy single-target requirement iff
some wavelength is within a strict 50 nm tolerance, and an infeasible check
reports the first unsatisfied role in `bands_required` order (every earlier
role satisfied, no later role consulted). -/
theorem C3_can_calculate_index_correct :
    (∀ (avail : List ℚ) (lo hi : ℚ),
      band_found avail (.range lo hi) = true ↔ ∃ w ∈ avail, lo ≤ w ∧ w ≤ hi) ∧
    (∀ (avail : List ℚ) (t : ℚ),
      band_found avail (.single t) = true ↔ ∃ w ∈ avail, |w - t| < 50) ∧
    (∀ (name : String) (idx : SpectralIndex) (avail : List ℚ),
      db_get (py_upper name) = some idx →
      (can_calculate_index name avail = .ok ↔
        ∀ p ∈ idx.bands_required, band_found avail p.2 = true)) ∧
    (∀ (name : String) (idx : SpectralIndex) (avail : List ℚ) (r : Role) (req : BandReq),
      db_get (py_upper name) = some idx →
      can_calculate_index name avail = .missing r req →
      ∃ p q, idx.bands_required = p ++ (r, req) :: q ∧
        (∀ x ∈ p, band_found avail x.2 = true) ∧ band_found avail req = false) := by
  refine ⟨band_found_range_iff, band_found_single_iff, ?_, ?_⟩
  · intro name idx avail hdb
    unfold can_calculate_index
    rw [hdb]
    exact first_missing_ok_iff avail idx.bands_required
  · intro name idx avail r req hdb h
    unfold can_calculate_index at h
    rw [hdb] at h
    exact first_missing_missing avail idx.bands_required r req h

/-- Witness for C3 at the spec's concrete input: `NDVI` with only wavelength
`665` is infeasible with `NIR (760, 900)` as the first (and only) missing
role, its `RED` predecessor being satisfied. -/
theorem C3_can_calculate_index_witness :
    ∃ p q, NDVI.bands_required = p ++ (Role.NIR, BandReq.range 760 900) :: q ∧
      (∀ x ∈ p, band_found [(665 : ℚ)] x.2 = true) ∧
      band_found [(665 : ℚ)] (BandReq.range 760 900) = false :=
  C3_can_calculate_index_correct.2.2.2 ("NDVI") NDVI [665] Role.NIR (.range 760 900)
    rfl (by decide)

/-- C4: on a feasible index `get_band_mapping` binds every required role,
running the closest-band selection against the full key set (never filtered
to the role's range), the binding's keys are exactly the required role names
in order, and two roles may share one band without error (`CAI` binds `SWIR1`
and `SWIR3` to the same raster). -/
theorem C4_get_band_mapping_correct :
    (∀ (name : String) (idx : SpectralIndex) (wtb : List (ℚ × String)),
      db_get (py_upper name) = some idx → wtb ≠ [] →
      ∃ m, get_band_mapping name wtb = some m ∧
        m.map Prod.fst = idx.bands_required.map Prod.fst ∧
        ∀ r req, (r, req) ∈ idx.bands_required → ∃ wl bnd,
          find_closest_band req (wtb.map Prod.fst) = some wl ∧
          lookupA wtb wl = some bnd ∧ (r, bnd) ∈ m) ∧
    get_band_mapping ("CAI") (dict_of_pairs [((2050 : ℚ), "x"), ((2200 : ℚ), "y")]) =
      some [(Role.SWIR1, "x"), (Role.SWIR2, "y"), (Role.SWIR3, "x")] :=
  ⟨get_band_mapping_total, by decide⟩

/-- Witness for C4 at the NDVI example: both roles bound, keys exactly
`[RED, NIR]`. -/
theorem C4_get_band_mapping_witness :
    ∃ m, get_band_mapping ("NDVI") [((665 : ℚ), "b1"), ((850 : ℚ), "b2")] = some m ∧
      m.map Prod.fst = NDVI.bands_required.map Prod.fst ∧
      ∀ r req, (r, req) ∈ NDVI.bands_required → ∃ wl bnd,
        find_closest_band req ([((665 : ℚ), "b1"), ((850 : ℚ), "b2")].map Prod.fst) = some wl ∧
        lookupA [((665 : ℚ), "b1"), ((850 : ℚ), "b2")] wl = some bnd ∧ (r, bnd) ∈ m :=
  C4_get_band_mapping_correct.1 ("NDVI") NDVI [((665 : ℚ), "b1"), ((850 : ℚ), "b2")]
    rfl (by decide)

/-- C5: with a non-empty wavelength dict the calculation loop always reaches
the summary with exact counts (calculated plus skipped equals the batch
size), each index's outcome — unknown name, infeasibility or engine failure —
only bumps one counter and the remaining batch is still processed, and the
concrete batch `[NDVI, FOO]` over wavelengths `[665, 850]` with a succeeding
engine yields exactly one calculated and one skipped. -/
theorem C5_batch_isolation_and_counts :
    (∀ (eo : String → Bool) (w : List ℚ) (wtb : List (ℚ × String)) (pfx : String)
      (names : List String) (acc : Nat × Nat), wtb ≠ [] →
      ∃ c s, tally eo w wtb pfx names acc = some (c, s) ∧
        c + s = acc.1 + acc.2 + names.length) ∧
    (∀ (eo : String → Bool) (w : List ℚ) (wtb : List (ℚ × String)) (pfx n : String)
      (rest : List String) (acc : Nat × Nat), wtb ≠ [] →
      ∃ o, process_index eo w wtb pfx n = some o ∧
        tally eo w wtb pfx (n :: rest) acc =
          tally eo w wtb pfx rest
            (if o = Outcome.calculated then (acc.1 + 1, acc.2) else (acc.1, acc.2 + 1))) ∧
    (∀ pfx : String,
      tally (fun _ => true) [665, 850] (dict_of_pairs [((665 : ℚ), "b1"), ((850 : ℚ), "b2")])
        pfx (["NDVI", "FOO"]) ((0, 0)) = some (1, 1)) := by
  refine ⟨?_, ?_, fun _ => rfl⟩
  · intro eo w wtb pfx names acc hne
    exact tally_sum eo w wtb pfx hne names acc
  · intro eo w wtb pfx n rest acc hne
    obtain ⟨o, ho⟩ := process_index_some eo w wtb pfx n hne
    refine ⟨o, ho, ?_⟩
    cases o <;> simp [tally, ho]

/-- Witness for C5 at the concrete batch of the claim. -/
theorem C5_batch_witness :
    ∃ c s, tally (fun _ => true) [665, 850]
        (dict_of_pairs [((665 : ℚ), "b1"), ((850 : ℚ), "b2")]) ("f")
        (["NDVI", "FOO"]) ((0, 0)) = some (c, s) ∧
      c + s = 0 + 0 + (["NDVI", "FOO"] : List String).length :=
  C5_batch_isolation_and_counts.1 (fun _ => true) [665, 850]
    (dict_of_pairs [((665 : ℚ), "b1"), ((850 : ℚ), "b2")]) ("f")
    (["NDVI", "FOO"]) ((0, 0)) (by decide)

/-- C6: for bands b1, b2 at wavelengths 665, 850 the generated NDVI
expression is the rendering of an expression tree whose value at any
environment is `(b2 - b1) / (b2 + b1)` (the `float(...)` node being a
value-preserving coercion marker the string carries as its prefix), and the
output name is the prefix followed by `_NDVI`. -/
theorem C6_ndvi_expression :
    ∃ idx m,
      db_get (py_upper ("NDVI")) = some idx ∧
      get_band_mapping ("NDVI") (dict_of_pairs [((665 : ℚ), "b1"), ((850 : ℚ), "b2")]) =
        some m ∧
      roleFun m Role.RED = "b1" ∧ roleFun m Role.NIR = "b2" ∧
      idx.formula (roleFun m) = "float(b2 - b1) / (b2 + b1)" ∧
      idx.formula (roleFun m) = (ndvi_expr ("b1") ("b2")).render ∧
      (∃ rest, idx.formula (roleFun m) = "float(" ++ rest) ∧
      (∀ env : String → ℚ,
        (ndvi_expr ("b1") ("b2")).eval env =
          (env ("b2") - env ("b1")) / (env ("b2") + env ("b1"))) ∧
      (∀ pfx : String, output_name pfx ("NDVI") = pfx ++ "_NDVI") := by
  refine ⟨NDVI, [(Role.RED, "b1"), (Role.NIR, "b2")], rfl, by decide, by decide, by decide,
    by decide, by decide, ⟨"b2 - b1) / (b2 + b1)", by decide⟩, fun env => rfl, fun pfx => ?_⟩
  show pfx ++ "_" ++ "NDVI" = pfx ++ "_NDVI"
  rw [String.append_assoc]
  rfl

/-- C7: when normalization is requested, an index carrying a normalization
range gets the second expression `(output - lo) / (hi - lo)` over the
materialized primary output (value `(r - lo) / (hi - lo)`, so `0` at range
`(-1, 1)` normalizes to `1/2`), and an index without the range (such as
MSAVI) is silently skipped, not an error. -/
theorem C7_normalization_correct :
    (∀ (idx : SpectralIndex) (o : String) (mn mx : ℚ),
      idx.normalize_range = some (mn, mx) →
      normalization_step true idx o = some (norm_expr o mn mx)) ∧
    (∀ (idx : SpectralIndex) (o : String),
      idx.normalize_range = none → normalization_step true idx o = none) ∧
    (∀ (o : String) (env : String → ℚ) (mn mx : ℚ),
      (norm_expr o mn mx).eval env = (env o - mn) / (mx - mn)) ∧
    (∀ (o : String) (env : String → ℚ), env o = 0 →
      (norm_expr o (-1) 1).eval env = 1 / 2) ∧
    NDVI.normalize_range = some (-1, 1) ∧
    (∀ o : String, normalization_step true NDVI o = some (norm_expr o (-1) 1)) ∧
    MSAVI.normalize_range = none ∧
    (∀ o : String, normalization_step true MSAVI o = none) := by
  refine ⟨?_, ?_, fun o env mn mx => rfl, ?_, rfl, fun o => rfl, rfl, fun o => rfl⟩
  · intro idx o mn mx h
    simp [normalization_step, h]
  · intro idx o h
    simp [normalization_step, h]
  · intro o env h
    show (env o - (-1)) / (1 - (-1)) = 1 / 2
    rw [h]
    norm_num

/-- Witness for C7: a primary result of 0 under range (-1, 1) normalizes
to one half. -/
theorem C7_normalization_witness :
    (norm_expr ("f_NDVI") (-1) 1).eval (fun _ => 0) = 1 / 2 :=
  C7_normalization_correct.2.2.2.1 ("f_NDVI") (fun _ => 0) rfl

/-- C8: theme filtering partitions the catalog: a themed listing holds
exactly the catalog entries of that theme; every listing is
lexicographically sorted by name; the unfiltered listing is the entire
catalog (as a permutation) with no duplicate names; the theme set is sorted
and duplicate-free; every catalog entry belongs to exactly one theme's
listing; and every listed theme is inhabited, so the union over
`get_themes` is the full catalog with no duplicates. -/
theorem C8_theme_partition :
    (∀ (t : String) (x : SpectralIndex),
      x ∈ list_indices (some t) ↔ x ∈ list_indices none ∧ x.theme = t) ∧
    (∀ th : Option String,
      ((list_indices th).map SpectralIndex.name).Pairwise (fun a b : String => a ≤ b)) ∧
    List.Perm (list_indices none) (indices_db.map Prod.snd) ∧
    ((list_indices none).map SpectralIndex.name).Nodup ∧
    get_themes.Nodup ∧
    get_themes.Sorted (fun a b : String => a ≤ b) ∧
    (∀ x ∈ list_indices none, x.theme ∈ get_themes ∧
      ∀ t, x ∈ list_indices (some t) ↔ t = x.theme) ∧
    (∀ t : String, t ∈ get_themes → ∃ x ∈ list_indices none, x.theme = t) ∧
    (∀ th : Option String,
      ((list_indices th).map SpectralIndex.name).Pairwise (fun a b : String => a < b)) ∧
    (∀ t : String,
      list_indices (some t) = (list_indices none).filter (fun x => decide (x.theme = t))) ∧
    List.Perm (get_themes.flatMap (fun t => list_indices (some t))) (list_indices none) := by
  refine ⟨mem_list_indices_some, list_indices_sorted_names, list_indices_none_perm,
    list_indices_none_names_nodup, get_themes_nodup, get_themes_sorted, ?_, ?_,
    list_indices_sorted_names_strict, list_indices_some_filter, themes_flatMap_perm⟩
  · intro x hx
    refine ⟨theme_mem_get_themes x ((mem_list_indices_none x).mp hx), fun t => ?_⟩
    rw [mem_list_indices_some]
    constructor
    · rintro ⟨-, h⟩
      exact h.symm
    · rintro rfl
      exact ⟨hx, rfl⟩
  · intro t ht
    unfold get_themes at ht
    rw [(List.perm_insertionSort _ _).mem_iff, List.mem_dedup] at ht
    obtain ⟨p, hp, hpt⟩ := List.mem_map.mp ht
    exact ⟨p.2, (mem_list_indices_none p.2).mpr (List.mem_map_of_mem Prod.snd hp), hpt⟩

/-- Witness for C8 at the spec's example theme: membership in the water
listing is membership in the catalog with theme water. -/
theorem C8_theme_partition_witness :
    NDWI ∈ list_indices (some "water") ↔
      NDWI ∈ list_indices none ∧ NDWI.theme = "water" :=
  C8_theme_partition.1 ("water") NDWI

/-- C9: resolution over a duplicate-bearing wavelength list does not crash
(the dict is non-empty, the mapping is defined with its full key set), and
the dict entry for a duplicated wavelength is the band identifier supplied
last, so the later entry shadows the earlier one in every binding keyed by
that wavelength. -/
theorem C9_duplicate_shadowing :
    (∀ (ps : List (ℚ × String)) (k : ℚ),
      lookupA (dict_of_pairs ps) k = last_value ps k) ∧
    (∀ (name : String) (idx : SpectralIndex) (ps : List (ℚ × String)),
      db_get (py_upper name) = some idx → ps ≠ [] →
      ∃ m, get_band_mapping name (dict_of_pairs ps) = some m ∧
        m.map Prod.fst = idx.bands_required.map Prod.fst) ∧
    dict_of_pairs [((665 : ℚ), "b1"), ((850 : ℚ), "b2"), ((665 : ℚ), "b3")] =
      [((665 : ℚ), "b3"), ((850 : ℚ), "b2")] ∧
    get_band_mapping ("NDVI")
        (dict_of_pairs [((665 : ℚ), "b1"), ((850 : ℚ), "b2"), ((665 : ℚ), "b3")]) =
      some [(Role.RED, "b3"), (Role.NIR, "b2")] ∧
    last_value [((665 : ℚ), "b1"), ((850 : ℚ), "b2"), ((665 : ℚ), "b3")] 665 = some "b3" := by
  refine ⟨lookupA_dict_of_pairs, ?_, by decide, by decide, by decide⟩
  intro name idx ps hdb hne
  obtain ⟨m, hm, hkeys, -⟩ :=
    get_band_mapping_total name idx (dict_of_pairs ps) hdb (dict_of_pairs_ne_nil ps hne)
  exact ⟨m, hm, hkeys⟩

/-- Witness for C9: the duplicated wavelength resolves to the last supplied
band name. -/
theorem C9_duplicate_shadowing_witness :
    lookupA (dict_of_pairs [((665 : ℚ), "b1"), ((665 : ℚ), "b3")]) 665 =
      last_value [((665 : ℚ), "b1"), ((665 : ℚ), "b3")] 665 :=
  C9_duplicate_shadowing.1 [((665 : ℚ), "b1"), ((665 : ℚ), "b3")] 665

/-- C10: a supplied theme alone determines the selection — the indices value
(including the literal all) is never consulted; with no theme, a value whose
lowercase form is all expands to every catalog key, and any other value is
split on commas, stripped and uppercased. -/
theorem C10_selection_precedence :
    (∀ (t s1 s2 : String), select_indices (some t) s1 = select_indices (some t) s2) ∧
    (∀ t : String,
      select_indices (some t) ("all") = (list_indices (some t)).map SpectralIndex.name) ∧
    (∀ s : String, py_lower s = "all" → select_indices none s = indices_db.map Prod.fst) ∧
    (∀ s : String, py_lower s ≠ "all" →
      select_indices none s = (s.splitOn (",")).map (fun x => py_upper x.trim)) ∧
    select_indices none ("ALL") = indices_db.map Prod.fst := by
  refine ⟨fun t s1 s2 => rfl, fun t => rfl, ?_, ?_, rfl⟩
  · intro s h
    unfold select_indices
    rw [if_pos h]
  · intro s h
    unfold select_indices
    rw [if_neg h]

/-- Witness for C10: a mixed-case All expands to the whole catalog when no
theme is given. -/
theorem C10_selection_precedence_witness :
    select_indices none ("All") = indices_db.map Prod.fst :=
  C10_selection_precedence.2.2.1 ("All") (by decide)

end

end HyperIndices
